import Mathlib

/-!
Verification of the game-and-watch retro-go filesystem layer.

We shallowly embed the C sources:
  * `filesystem.c` (the tamp-aware revision): handle pool, compression
    arbiter, littlefs block-device adapter, public open/close API;
  * `Core/Src/filesystem.c` (the standalone revision): its block-device
    adapter, hardcoded geometry, and `filesystem_write`.

File handles are identified by their slot index: the C pointer
`&file_handles[i].file` corresponds to the index `i`, and pointer equality
between distinct slots corresponds to index equality.  Machine integers are
modelled as `Nat`/`Int`; `uint8_t` complement is taken against `255`.
-/

namespace GWFS

/-- `MAX_OPEN_FILES` from filesystem.c (capacity of the static handle pool). -/
def MAX_OPEN_FILES : Nat := 2

/-- The mutable globals of the handle pool: `file_handles_used_bitmask`
(a `uint8_t`) and `file_index_using_compression` (an `int8_t`, `-1` meaning
the compressor/decompressor is available). -/
structure PoolState where
  usedBitmask : Nat
  compressionOwner : Int
deriving DecidableEq, Repr

/-- Loop of `acquire_file_handle`, scanning slot `i` with the current
`test_bit`; `fuel = MAX_OPEN_FILES - i` counts the remaining iterations, so
`fuel = 0` is the loop exit `i = MAX_OPEN_FILES`.  A free slot has its bit
claimed first, and only then is the compression arbiter consulted: on the
compression-busy path the function returns `NULL` with the freshly set bit
left as it is, exactly as the C does (the bitmask is a global, and no code
clears it before `return NULL`). -/
def acquire_go (use_compression : Bool) (s : PoolState) :
    Nat → Nat → Nat → Option Nat × PoolState
  | 0, _, _ => (none, s)
  | fuel + 1, i, test_bit =>
    if s.usedBitmask &&& test_bit = 0 then
      let s1 : PoolState := { s with usedBitmask := s.usedBitmask ||| test_bit }
      if use_compression then
        if 0 ≤ s1.compressionOwner then
          (none, s1)
        else
          (some i, { s1 with compressionOwner := (i : Int) })
      else
        (some i, s1)
    else
      acquire_go use_compression s fuel (i + 1) (test_bit <<< 1)

/-- `acquire_file_handle` from filesystem.c: returns the acquired slot index
(`none` models returning `NULL`) together with the updated pool globals. -/
def acquire_file_handle (use_compression : Bool) (s : PoolState) :
    Option Nat × PoolState :=
  acquire_go use_compression s MAX_OPEN_FILES 0 1

/-- Loop of `file_is_using_compression`: slot-index equality models the
pointer comparison `file == &(file_handles[i].file)`, and `i` is compared
with the owner index under the usual C integer promotions. -/
def fiuc_go (h : Nat) (owner : Int) : Nat → Nat → Bool
  | 0, _ => false
  | fuel + 1, i =>
    if h = i ∧ (i : Int) = owner then true else fiuc_go h owner fuel (i + 1)

/-- `file_is_using_compression` from filesystem.c. -/
def file_is_using_compression (h : Nat) (s : PoolState) : Bool :=
  fiuc_go h s.compressionOwner MAX_OPEN_FILES 0

/-- Loop of `release_file_handle`.  In the C source `test_bit` is
initialised to `0x01` and — unlike the acquire loop — is never shifted inside
the loop body, so every iteration works with bit `0`; the recursion here
passes `test_bit` through unchanged to mirror that.  `~test_bit` on the
`uint8_t` bitmask is `255 ^^^ test_bit`.  The compression check runs after
the bitmask update, on the updated globals.  Falling off the loop models the
`assert(0)` for an untracked handle, as `none`. -/
def release_go (h : Nat) (s : PoolState) : Nat → Nat → Nat → Option PoolState
  | 0, _, _ => none
  | fuel + 1, i, test_bit =>
    if h = i then
      let s1 : PoolState :=
        { s with usedBitmask := s.usedBitmask &&& (255 ^^^ test_bit) }
      some (if file_is_using_compression h s1 then
              { s1 with compressionOwner := -1 }
            else s1)
    else
      release_go h s fuel (i + 1) test_bit

/-- `release_file_handle` from filesystem.c; `none` models the fatal
`assert(0)` reached for a handle that no slot owns. -/
def release_file_handle (h : Nat) (s : PoolState) : Option PoolState :=
  release_go h s MAX_OPEN_FILES 0 1

/-- C1: the claim says a compression-busy `acquire_file_handle` rolls the
allocation back, leaving the used bitmask as it was.  Evaluating the code at
the failing input — slot 0 in use and owning the compressor, a compressed
acquire — the call fails (`none`) but the bitmask has gone from `0b01` to
`0b11`: slot 1 stays marked in use and is never reclaimable. -/
theorem C1_compression_busy_leaks_slot :
    acquire_file_handle true { usedBitmask := 1, compressionOwner := 0 } =
      (none, { usedBitmask := 3, compressionOwner := 0 }) := by
  decide

/-- C2: the claim says releasing a tracked handle clears exactly its own
bit.  Evaluating the code at the failing input — both slots in use, slot 1
released — bit 0 is cleared instead of bit 1 (`0b11` becomes `0b10`), because
the release loop never shifts `test_bit`. -/
theorem C2_release_clears_wrong_bit :
    release_file_handle 1 { usedBitmask := 3, compressionOwner := -1 } =
      some { usedBitmask := 2, compressionOwner := -1 } := by
  decide

/-- One `struct lfs_attr` entry as configured by `filesystem_open`: the tag
byte, the declared size, and the timestamp value placed in the buffer. -/
structure FileAttr where
  tag : Char
  size : Nat
  value : Nat
deriving DecidableEq, Repr

/-- The distinct `assert` sites a filesystem call can die on. -/
inductive FatalReason where
  | tampUnimplemented
  | zeroClock
  | lfsOpenFailed
  | lfsCloseFailed
  | untrackedHandle
deriving DecidableEq, Repr

/-- Result of `filesystem_open`: a slot index with its configured time
attribute (the returned `&fs_file_handle->file`), `null` for the
handle-allocation failure path, or an `assert` abort. -/
inductive OpenOutcome where
  | ok (slot : Nat) (attr : FileAttr)
  | null
  | fatal (r : FatalReason)
deriving DecidableEq, Repr

/-- littlefs open-flag constants used by `filesystem_open`. -/
def LFS_O_RDONLY : Nat := 1

/-- littlefs write-only flag. -/
def LFS_O_WRONLY : Nat := 2

/-- littlefs create-if-missing flag. -/
def LFS_O_CREAT : Nat := 0x0100

/-- `filesystem_open` from filesystem.c.  The external collaborators are
passed in: `time` is what `GW_GetUnixTime()` returns, and `lfs_opencfg`
gives the value `lfs_file_opencfg` returns for this path under the computed
flags (`0` on success, e.g. `LFS_ERR_NOENT = -2` for a read-only open of a
missing path).  The C control flow in order: compute the flags, acquire a
handle (returning `NULL` on failure), `assert(0)` if compression was
requested, configure buffer/attrs, read the clock and `assert` it non-zero,
fill the `'t'` attribute of size 4, and `assert` that `lfs_file_opencfg`
returned 0. -/
def filesystem_open (write_mode use_compression : Bool) (time : Nat)
    (lfs_opencfg : Nat → Int) (s : PoolState) : OpenOutcome × PoolState :=
  let flags := if write_mode then LFS_O_WRONLY ||| LFS_O_CREAT else LFS_O_RDONLY
  match acquire_file_handle use_compression s with
  | (none, s1) => (OpenOutcome.null, s1)
  | (some i, s1) =>
    if use_compression then
      (OpenOutcome.fatal FatalReason.tampUnimplemented, s1)
    else if time = 0 then
      (OpenOutcome.fatal FatalReason.zeroClock, s1)
    else if lfs_opencfg flags ≠ 0 then
      (OpenOutcome.fatal FatalReason.lfsOpenFailed, s1)
    else
      (OpenOutcome.ok i { tag := 't', size := 4, value := time }, s1)

/-- Result of `filesystem_close` (a `void` function in C: either it returns,
or one of its asserts aborts). -/
inductive CloseOutcome where
  | ok
  | fatal (r : FatalReason)
deriving DecidableEq, Repr

/-- `filesystem_close` from filesystem.c: `assert(0)` if the handle owns the
compressor, `assert(lfs_file_close(&lfs, file) >= 0)`, then release the
handle (whose failure to find the handle is itself an `assert(0)`).
`lfs_close_result` is the value `lfs_file_close` returns.  On a fatal
outcome the globals keep the values they had when the `assert` fired. -/
def filesystem_close (h : Nat) (lfs_close_result : Int) (s : PoolState) :
    CloseOutcome × PoolState :=
  if file_is_using_compression h s then
    (CloseOutcome.fatal FatalReason.tampUnimplemented, s)
  else if lfs_close_result < 0 then
    (CloseOutcome.fatal FatalReason.lfsCloseFailed, s)
  else
    match release_file_handle h s with
    | none => (CloseOutcome.fatal FatalReason.untrackedHandle, s)
    | some s1 => (CloseOutcome.ok, s1)

/-- One client call in a raw (uncompressed) open/close trace, with the
clock and the underlying littlefs behaving normally. -/
inductive TraceOp where
  | opn
  | cls (h : Nat)
deriving DecidableEq, Repr

/-- Observable result of one trace step. -/
inductive TraceResult where
  | opened (slot : Nat)
  | openFailed
  | closed
  | traceFatal
deriving DecidableEq, Repr

/-- Run one raw open/close call against the pool (clock = 1, all littlefs
calls succeed). -/
def runOp (op : TraceOp) (s : PoolState) : TraceResult × PoolState :=
  match op with
  | TraceOp.opn =>
    match filesystem_open true false 1 (fun _ => 0) s with
    | (OpenOutcome.ok i _, s1) => (TraceResult.opened i, s1)
    | (OpenOutcome.null, s1) => (TraceResult.openFailed, s1)
    | (OpenOutcome.fatal _, s1) => (TraceResult.traceFatal, s1)
  | TraceOp.cls h =>
    match filesystem_close h 0 s with
    | (CloseOutcome.ok, s1) => (TraceResult.closed, s1)
    | (CloseOutcome.fatal _, s1) => (TraceResult.traceFatal, s1)

/-- Run a list of calls, collecting each step's observable result. -/
def runTrace : List TraceOp → PoolState → List TraceResult × PoolState
  | [], s => ([], s)
  | op :: ops, s =>
    let (r, s1) := runOp op s
    let (rs, s2) := runTrace ops s1
    (r :: rs, s2)

/-- C3: the claim says opens within the capacity of 2 never exhaust the
pool.  Evaluating the code on the failing trace open, open, close both,
open, open — at the final open only one handle is logically open (three
opens succeeded, two closed), yet it fails with the pool-exhausted `NULL`,
because both closes cleared bit 0 and slot 1's bit was never returned. -/
theorem C3_exhaustion_within_capacity :
    runTrace [TraceOp.opn, TraceOp.opn, TraceOp.cls 0, TraceOp.cls 1,
        TraceOp.opn, TraceOp.opn]
      { usedBitmask := 0, compressionOwner := -1 } =
      ([TraceResult.opened 0, TraceResult.opened 1, TraceResult.closed,
        TraceResult.closed, TraceResult.opened 0, TraceResult.openFailed],
       { usedBitmask := 3, compressionOwner := -1 }) := by
  decide

/-- C4 counterexample: with slot 0 in use and owning the compression slot,
`filesystem_close` on that handle hits the `assert(0)` for unimplemented
tamp compression before any release happens: the claim that closing the
owning handle clears the ownership fails at this input — the call aborts
and the owner index is untouched. -/
theorem C4_close_owner_aborts :
    (filesystem_close 0 0 { usedBitmask := 1, compressionOwner := 0 }).1 =
        CloseOutcome.fatal FatalReason.tampUnimplemented ∧
      (filesystem_close 0 0
          { usedBitmask := 1, compressionOwner := 0 }).2.compressionOwner = 0 := by
  decide

/-- A compressed acquire can never succeed while the arbiter has an owner:
whichever free slot the scan claims, the `file_index_using_compression >= 0`
check makes it return `NULL`. -/
lemma acquire_go_compression_busy (s : PoolState)
    (hs : 0 ≤ s.compressionOwner) :
    ∀ fuel i tb, (acquire_go true s fuel i tb).1 = none := by
  intro fuel
  induction fuel with
  | zero => intro i tb; rfl
  | succ n ih =>
    intro i tb
    simp only [acquire_go]
    split_ifs with h1
    · rfl
    · exact ih (i + 1) (tb <<< 1)

/-- C4 (amended): while a slot owns the compression arbiter, any further
compressed acquire fails (`NULL`), and releasing the owning handle through
`release_file_handle` clears the ownership back to `-1`; the public
`filesystem_close`, however, aborts on such a handle before reaching the
release (see the counterexample). -/
theorem C4_arbiter_exclusivity (s : PoolState) (h : Nat)
    (hown : s.compressionOwner = (h : Int)) (hh : h < MAX_OPEN_FILES) :
    (acquire_file_handle true s).1 = none ∧
      ∃ s1, release_file_handle h s = some s1 ∧ s1.compressionOwner = -1 := by
  have hge : 0 ≤ s.compressionOwner := hown ▸ Int.natCast_nonneg h
  constructor
  · exact acquire_go_compression_busy s hge MAX_OPEN_FILES 0 1
  · have hh2 : h < 2 := hh
    have hrel : release_file_handle h s =
        some { s with usedBitmask := s.usedBitmask &&& 254, compressionOwner := -1 } := by
      interval_cases h <;>
        simp [release_file_handle, release_go, file_is_using_compression,
          fiuc_go, MAX_OPEN_FILES, hown]
    exact ⟨_, hrel, rfl⟩

/-- C4 witness: the amended theorem applied at the concrete state where
slot 0 holds the compression arbiter. -/
theorem C4_arbiter_exclusivity_witness :
    (acquire_file_handle true { usedBitmask := 1, compressionOwner := 0 }).1 = none ∧
      ∃ s1, release_file_handle 0 { usedBitmask := 1, compressionOwner := 0 } =
          some s1 ∧ s1.compressionOwner = -1 :=
  C4_arbiter_exclusivity { usedBitmask := 1, compressionOwner := 0 } 0
    (by decide) (by decide)

/-- C5: the claim (and the C function's own doc comment) says a read-mode
open of a missing path returns a failure value to the caller.  Evaluating
the code at the failing input — free pool, clock at 1000, `lfs_file_opencfg`
returning `LFS_ERR_NOENT = -2` — `assert(0 == lfs_file_opencfg(...))` fires
and the process aborts instead of returning `NULL`. -/
theorem C5_notfound_open_aborts :
    filesystem_open false false 1000 (fun _ => (-2 : Int))
        { usedBitmask := 0, compressionOwner := -1 } =
      (OpenOutcome.fatal FatalReason.lfsOpenFailed,
       { usedBitmask := 1, compressionOwner := -1 }) := by
  decide

/-- One hardware-facing action issued by a block-device adapter primitive,
in program order. -/
inductive FlashEvent where
  | disableDCache
  | invalidateDCache
  | enableDCache
  | disableMMap
  | enableMMap
  | programOp (address : Nat) (size : Nat)
  | eraseSync (address : Nat) (len : Nat)
deriving DecidableEq, Repr

/-- `littlefs_api_prog` from filesystem.c (the tamp-aware revision).
`base` is the byte offset of `filesystem_partition` from
`__EXTFLASH_BASE__`.  `none` models `assert((address & 0xFF) == 0)`
failing; otherwise the listed hardware calls are issued in order. -/
def littlefs_api_prog (base block off size block_size : Nat) :
    Option (List FlashEvent) :=
  let address := base + block * block_size + off
  if address &&& 0xFF = 0 then
    some [FlashEvent.disableDCache, FlashEvent.invalidateDCache,
      FlashEvent.disableMMap, FlashEvent.programOp address size,
      FlashEvent.enableMMap, FlashEvent.enableDCache]
  else
    none

/-- `littlefs_api_erase` from filesystem.c (the tamp-aware revision):
asserts 4096-byte alignment of the physical address, then issues the
cache/mapping-bracketed synchronous erase of one block at exactly that
address. -/
def littlefs_api_erase (base block block_size : Nat) :
    Option (List FlashEvent) :=
  let address := base + block * block_size
  if address &&& (4 * 1024 - 1) = 0 then
    some [FlashEvent.disableDCache, FlashEvent.invalidateDCache,
      FlashEvent.disableMMap, FlashEvent.eraseSync address block_size,
      FlashEvent.enableMMap, FlashEvent.enableDCache]
  else
    none

/-- `littlefs_api_prog` from Core/Src/filesystem.c: no alignment assert and
no data-cache handling — only the memory-mapped-mode bracket around the
program command. -/
def coreSrc_littlefs_api_prog (base block off size block_size : Nat) :
    List FlashEvent :=
  [FlashEvent.disableMMap,
   FlashEvent.programOp (base + block * block_size + off) size,
   FlashEvent.enableMMap]

/-- The block count `filesystem_init` writes into `cfg.block_count`
(filesystem.c, tamp-aware revision): the size of the reserved region
`[__FILESYSTEM_START__, __FILESYSTEM_END__)` shifted right by 12. -/
def filesystem_init_block_count (fs_start fs_end : Nat) : Nat :=
  (fs_end - fs_start) >>> 12

/-- The `.block_count` initializer in the `cfg` of Core/Src/filesystem.c:
the literal `256`, not derived from the region size (the adjacent comment
reads `TODO how can we make this depend on __FILESYSTEM_LENGTH__`). -/
def coreSrc_cfg_block_count : Nat := 256

/-- Every hardware call `littlefs_api_erase` makes when the alignment
assert passes, spelled with the modulo form of the mask test. -/
lemma littlefs_api_erase_eq_if (base block block_size : Nat) :
    littlefs_api_erase base block block_size =
      if (base + block * block_size) % 4096 = 0 then
        some [FlashEvent.disableDCache, FlashEvent.invalidateDCache,
          FlashEvent.disableMMap,
          FlashEvent.eraseSync (base + block * block_size) block_size,
          FlashEvent.enableMMap, FlashEvent.enableDCache]
      else
        none := by
  have h := Nat.and_pow_two_sub_one_eq_mod (base + block * block_size) 12
  norm_num at h
  unfold littlefs_api_erase
  norm_num [h]

/-- C6: the tamp-aware `filesystem_init` computes the mounted block count as
region size divided by the 4096-byte block size; the Core/Src `cfg`, by
contrast, mounts with the constant `256`, which differs from the
size-derived count for any region other than 1 MiB — an 8192-byte region
needs 2 blocks, not 256. -/
theorem C6_block_count_geometry (fs_start fs_end : Nat) :
    filesystem_init_block_count fs_start fs_end = (fs_end - fs_start) / 4096 ∧
      (coreSrc_cfg_block_count = 256 ∧ filesystem_init_block_count 0 8192 = 2) := by
  refine ⟨?_, by decide, by decide⟩
  unfold filesystem_init_block_count
  rw [Nat.shiftRight_eq_div_pow]

/-- C7: whenever `littlefs_api_erase` issues its erase (the alignment assert
passed), the erased address is a multiple of 4096 and is exactly the
computed physical address `base + block * block_size`, unadjusted; and an
unaligned computed address makes the assert fail, so nothing is issued. -/
theorem C7_erase_alignment (base block block_size : Nat) :
    (∀ es, littlefs_api_erase base block block_size = some es →
        (base + block * block_size) % 4096 = 0 ∧
          FlashEvent.eraseSync (base + block * block_size) block_size ∈ es) ∧
      ((base + block * block_size) % 4096 ≠ 0 →
        littlefs_api_erase base block block_size = none) := by
  rw [littlefs_api_erase_eq_if]
  by_cases hal : (base + block * block_size) % 4096 = 0
  · refine ⟨fun es hes => ⟨hal, ?_⟩, fun hne => absurd hal hne⟩
    rw [if_pos hal] at hes
    cases hes
    simp
  · refine ⟨fun es hes => ?_, fun _ => if_neg hal⟩
    rw [if_neg hal] at hes
    cases hes

/-- C7 witness: block 1 of a block-aligned region erases exactly address
4096; shifting the region base by one byte makes the assert reject. -/
theorem C7_erase_alignment_witness :
    ((0 + 1 * 4096) % 4096 = 0 ∧
        FlashEvent.eraseSync (0 + 1 * 4096) 4096 ∈
          [FlashEvent.disableDCache, FlashEvent.invalidateDCache,
            FlashEvent.disableMMap, FlashEvent.eraseSync 4096 4096,
            FlashEvent.enableMMap, FlashEvent.enableDCache]) ∧
      littlefs_api_erase 1 1 4096 = none := by
  constructor
  · exact (C7_erase_alignment 0 1 4096).1 _ (by decide)
  · exact (C7_erase_alignment 1 1 4096).2 (by decide)

/-- C8: every successful `filesystem_open` carries the timestamp attribute:
tag `'t'`, size exactly 4, value the clock reading, which is then non-zero;
and when the clock reads 0, any open that acquired a handle dies on
`assert(current_time)` instead of proceeding. -/
theorem C8_time_attribute (write_mode : Bool) (time : Nat)
    (lfs_opencfg : Nat → Int) (s : PoolState) :
    (∀ i attr s1,
        filesystem_open write_mode false time lfs_opencfg s =
            (OpenOutcome.ok i attr, s1) →
          attr.tag = 't' ∧ attr.size = 4 ∧ attr.value = time ∧ time ≠ 0) ∧
      (time = 0 → ∀ i s1, acquire_file_handle false s = (some i, s1) →
        filesystem_open write_mode false time lfs_opencfg s =
          (OpenOutcome.fatal FatalReason.zeroClock, s1)) := by
  constructor
  · intro i attr s1 h
    simp only [filesystem_open] at h
    split at h
    · simp at h
    · by_cases ht : time = 0
      · rw [if_neg (by simp), if_pos ht] at h
        simp at h
      · rw [if_neg (by simp), if_neg ht] at h
        by_cases hl : lfs_opencfg
            (if write_mode then LFS_O_WRONLY ||| LFS_O_CREAT else LFS_O_RDONLY) ≠ 0
        · rw [if_pos hl] at h
          simp at h
        · rw [if_neg hl] at h
          rw [Prod.mk.injEq, OpenOutcome.ok.injEq] at h
          rcases h with ⟨⟨-, hattr⟩, -⟩
          subst hattr
          exact ⟨rfl, rfl, rfl, ht⟩
  · intro ht i s1 hacq
    simp [filesystem_open, hacq, ht]

/-- C8 witness: a write-mode open at clock 5 on an empty pool yields the
`'t'`/4/5 attribute, and the same open at clock 0 aborts on the clock
assert. -/
theorem C8_time_attribute_witness :
    (({ tag := 't', size := 4, value := 5 } : FileAttr).tag = 't' ∧
        ({ tag := 't', size := 4, value := 5 } : FileAttr).size = 4 ∧
        ({ tag := 't', size := 4, value := 5 } : FileAttr).value = 5 ∧
        (5 : Nat) ≠ 0) ∧
      filesystem_open true false 0 (fun _ => 0)
          { usedBitmask := 0, compressionOwner := -1 } =
        (OpenOutcome.fatal FatalReason.zeroClock,
         { usedBitmask := 1, compressionOwner := -1 }) := by
  constructor
  · exact (C8_time_attribute true 5 (fun _ => 0)
      { usedBitmask := 0, compressionOwner := -1 }).1 0
      { tag := 't', size := 4, value := 5 }
      { usedBitmask := 1, compressionOwner := -1 } (by decide)
  · exact (C8_time_attribute true 0 (fun _ => 0)
      { usedBitmask := 0, compressionOwner := -1 }).2 rfl 0
      { usedBitmask := 1, compressionOwner := -1 } (by decide)

/-- C9: the claim requires the six-step cache/mapping sequence around every
flash program.  The tamp-aware `littlefs_api_prog` issues exactly disable
data cache, invalidate data cache, exit memory-mapped mode, program,
re-enter memory-mapped mode, re-enable data cache; evaluating the Core/Src
`littlefs_api_prog` at the failing input shows it issues only the
memory-mapped bracket — no data-cache operation at all. -/
theorem C9_prog_sequence :
    littlefs_api_prog 0 0 256 256 4096 =
        some [FlashEvent.disableDCache, FlashEvent.invalidateDCache,
          FlashEvent.disableMMap, FlashEvent.programOp 256 256,
          FlashEvent.enableMMap, FlashEvent.enableDCache] ∧
      coreSrc_littlefs_api_prog 0 0 256 256 4096 =
        [FlashEvent.disableMMap, FlashEvent.programOp 256 256,
         FlashEvent.enableMMap] := by
  refine ⟨by decide, by decide⟩

/-- Outcome of Core/Src `filesystem_write`, by which assert (if any) the
call dies on. -/
inductive WriteOutcome where
  | ok
  | fatalZeroClock
  | fatalOpenAssert
  | fatalWriteAssert
  | fatalCloseAssert
deriving DecidableEq, Repr

/-- `filesystem_write` from Core/Src/filesystem.c, with the collaborator
return values passed in.  Its asserts run in order:
`assert(current_time)`, `assert(0 == lfs_file_opencfg(...))`,
`assert(size == lfs_file_write(...))`, and finally
`assert(lfs_file_close(&lfs, &file))` — an `assert` on the raw return
value, which passes exactly when `lfs_file_close` returns non-zero. -/
def coreSrc_filesystem_write (time : Nat) (open_result write_result : Int)
    (close_result : Int) (size : Nat) : WriteOutcome :=
  if time = 0 then WriteOutcome.fatalZeroClock
  else if open_result ≠ 0 then WriteOutcome.fatalOpenAssert
  else if (size : Int) ≠ write_result then WriteOutcome.fatalWriteAssert
  else if close_result = 0 then WriteOutcome.fatalCloseAssert
  else WriteOutcome.ok

/-- C10: in a Core/Src `filesystem_write` whose earlier asserts pass (clock
1, open returned 0, write returned the full size 4), the call completes
exactly when `lfs_file_close` returned non-zero, and a successful close
returning 0 trips the final assert. -/
theorem C10_close_assert_inverted (close_result : Int) :
    (coreSrc_filesystem_write 1 0 4 close_result 4 = WriteOutcome.ok ↔
        close_result ≠ 0) ∧
      coreSrc_filesystem_write 1 0 4 0 4 = WriteOutcome.fatalCloseAssert := by
  constructor
  · by_cases h : close_result = 0 <;> simp [coreSrc_filesystem_write, h]
  · decide

/-- C10 witness: a close that errors with `-84` (littlefs corruption) lets
the write path complete. -/
theorem C10_close_assert_inverted_witness :
    coreSrc_filesystem_write 1 0 4 (-84) 4 = WriteOutcome.ok :=
  (C10_close_assert_inverted (-84)).1.mpr (by decide)

end GWFS
